import Mathlib

/-!
Verification of the Story subsystem (StoryManager.cpp) against its
natural-language specification.  The definitions below are a shallow
embedding of the relevant functions of src/td/telegram/StoryManager.cpp;
machine integers are modelled as Int (no arithmetic here ever overflows
the C++ int64 range for the inputs considered), fallible entry points
return explicit result types carrying the literal (code, message) pairs
of the source.
-/

namespace StoryManager

/-- Modelled from the spec: DialogDate.h is not part of the repository
sources.  Following the spec, a list position is a pair
(private_order, owner) ordered lexicographically, and the materialisation
cursor list_last_story_date is such a pair or the maximal value
MAX_DIALOG_DATE (written +INF in the spec).  Here MAX_DIALOG_DATE is
represented by the value none of Option DialogDate. -/
structure DialogDate where
  order : Int
  ownerId : Int
deriving DecidableEq

/-- Modelled from the spec: lexicographic comparison of a DialogDate with
a cursor; every pair is at most MAX_DIALOG_DATE (none). -/
def dialogDateLE (a : DialogDate) (cursor : Option DialogDate) : Bool :=
  match cursor with
  | none => true
  | some b =>
    if a.order < b.order then true
    else if a.order = b.order then decide (a.ownerId ≤ b.ownerId)
    else false

/-- State of one of the two global story lists (StoryManager::StoryList),
restricted to the fields read and written by
update_story_list_sent_total_count.  ordered_stories_ is the sorted set of
(private_order, owner) pairs; only its size matters here. -/
structure StoryList where
  serverTotalCount : Int
  orderedStories : List DialogDate
  listLastStoryDate : Option DialogDate
  sentTotalCount : Int
deriving DecidableEq

/-- Embedding of StoryManager::update_story_list_sent_total_count
(StoryManager.cpp:1623-1636).  Returns the updated list together with
whether an updateStoryListChatCount update was emitted.  The C++ guard
`server_total_count_ == -1 || is_bot` leaves the list untouched; otherwise
new_total_count starts at |ordered_stories_| and is raised to
server_total_count_ only when list_last_story_date_ differs from
MAX_DIALOG_DATE; the update is sent exactly when sent_total_count_
changes. -/
def update_story_list_sent_total_count (isBot : Bool) (l : StoryList) :
    StoryList × Bool :=
  if l.serverTotalCount = -1 ∨ isBot = true then (l, false)
  else
    let n0 : Int := l.orderedStories.length
    let n : Int := if l.listLastStoryDate ≠ none then max n0 l.serverTotalCount else n0
    if l.sentTotalCount ≠ n then ({ l with sentTotalCount := n }, true)
    else (l, false)

/-- The fields of StoryManager::Story read by the functions below.
hasContent models `content_ != nullptr`, isUpdateSent models
`is_update_sent_`. -/
structure Story where
  date : Int
  expireDate : Int
  isPinned : Bool
  hasContent : Bool
  isUpdateSent : Bool
deriving DecidableEq

/-- Embedding of StoryManager::is_active_story (StoryManager.cpp:1138-1140):
`story != nullptr && G()->unix_time() < story->expire_date_`. -/
def is_active_story (now : Int) (story : Option Story) : Bool :=
  match story with
  | none => false
  | some s => decide (now < s.expireDate)

/-- Embedding of the state change performed by
StoryManager::on_update_active_stories (StoryManager.cpp:2904-2989) on the
owner's ActiveStories entry.  The entry is represented as the pair
(max_read_story_id, story_ids); story identifiers are Int with 0 standing
for the empty StoryId().  The predicates isServer and isActive stand for
`story_id.is_server()` and `is_active_story(get_story(...))` of the
filter at lines 2908-2917; existing is the current entry (none when the
owner had no entry, in which case a stashed max_read_story_ids_ value may
be inherited, lines 2959-2968); the second component of the result is the
effective from_database flag, forced to false when the filter dropped
anything (line 2918).  The (private, public) order recomputation that the
source performs on the updated entry is modelled separately by
update_active_stories_order. -/
def on_update_active_stories (isServer isActive : Int → Bool)
    (existing : Option (Int × List Int)) (stashedMaxRead : Int)
    (maxRead0 : Int) (storyIds0 : List Int) (fromDatabase : Bool) :
    Option (Int × List Int) × Bool :=
  let ids := storyIds0.filter (fun i => isServer i && isActive i)
  let fromDb := if ids.length ≠ storyIds0.length then false else fromDatabase
  match ids with
  | [] => (none, fromDb)
  | h :: t =>
    let maxRead1 := if maxRead0 < h then 0 else maxRead0
    let maxRead2 :=
      if existing = none ∧ stashedMaxRead ≠ 0 ∧ maxRead1 < stashedMaxRead ∧ h ≤ stashedMaxRead
      then stashedMaxRead else maxRead1
    (some (maxRead2, h :: t), fromDb)

/-- Per-owner ActiveStories entry with its cached placement, as used by
update_active_stories_order.  storyListId models the cached
story_list_id_ (none when invalid), with false = Main and true = Archive. -/
structure ActiveStories where
  maxReadStoryId : Int
  storyIds : List Int
  privateOrder : Int
  publicOrder : Int
  storyListId : Option Bool
deriving DecidableEq

/-- Environment read by update_active_stories_order: the owner dialog
identifier, the changelog sender and self identifiers, whether the owner
is a premium user (the source checks DialogType::User together with
is_user_premium), the authoring date of the last story in the entry
(`last_story->date_`), the list returned by get_dialog_story_list_id for
the owner (none when invalid) and that list's materialisation cursor. -/
structure OrderCtx where
  isBot : Bool
  myDialogId : Int
  changelogDialogId : Int
  ownerIsUser : Bool
  ownerIsPremium : Bool
  lastStoryDate : Int
  storyListId : Option Bool
  listLastStoryDate : Option DialogDate
deriving DecidableEq

/-- Embedding of the private order packing of
StoryManager::update_active_stories_order (StoryManager.cpp:3005-3019):
the date of the last story plus bit 33 for a premium user owner, bit 34
for the changelog sender, bit 35 when max_read_story_id is below the last
story identifier, bit 36 for self. -/
def compute_private_order (ctx : OrderCtx) (ownerDialogId : Int)
    (maxRead lastStoryId : Int) : Int :=
  ctx.lastStoryDate
  + (if ctx.ownerIsUser = true ∧ ctx.ownerIsPremium = true then (2 : Int) ^ 33 else 0)
  + (if ownerDialogId = ctx.changelogDialogId then (2 : Int) ^ 34 else 0)
  + (if maxRead < lastStoryId then (2 : Int) ^ 35 else 0)
  + (if ownerDialogId = ctx.myDialogId then (2 : Int) ^ 36 else 0)

/-- Embedding of StoryManager::update_active_stories_order
(StoryManager.cpp:2991-3070) restricted to its effect on the entry's
cached (private_order, public_order, story_list_id) triple; the returned
Bool is the function's return value (whether the public placement
changed, lines 3048-3069).  new_public_order is 0 unless the owner's list
is valid and (new_private_order, owner) is at most the list's
list_last_story_date_ (lines 3026-3031). -/
def update_active_stories_order (ctx : OrderCtx) (ownerDialogId : Int)
    (a : ActiveStories) : ActiveStories × Bool :=
  if ctx.isBot = true then (a, false)
  else
    let lastStoryId := a.storyIds.getLastD 0
    let newPrivateOrder := compute_private_order ctx ownerDialogId a.maxReadStoryId lastStoryId
    let newPublicOrder :=
      match ctx.storyListId with
      | none => 0
      | some _ =>
        if dialogDateLE ⟨newPrivateOrder, ownerDialogId⟩ ctx.listLastStoryDate = true
        then newPrivateOrder else 0
    if a.privateOrder ≠ newPrivateOrder ∨ a.publicOrder ≠ newPublicOrder ∨
        a.storyListId ≠ ctx.storyListId then
      let a1 := { a with privateOrder := newPrivateOrder }
      if a1.publicOrder ≠ newPublicOrder ∨ a1.storyListId ≠ ctx.storyListId then
        ({ a1 with storyListId := ctx.storyListId, publicOrder := newPublicOrder }, true)
      else (a1, false)
    else (a, false)

/-- Embedding of StoryManager::on_story_expire_timeout
(StoryManager.cpp:1022-1053).  The result is the pair (story fully
deleted via on_delete_story, final ActiveStories entry of the owner).
When the stored story is missing or still active (`unix_time <
expire_date_`, the monotonic-clock guard at line 1032) nothing happens.
Otherwise the story is deleted in full exactly when it is non-owned, has
content and is not pinned (line 1042); on_delete_story removes the
identifier from the owner's entry and re-runs on_update_active_stories
(StoryManager.cpp:2723-2728), and on the keep path the expire handler
itself re-runs on_update_active_stories on the unchanged identifier list
(lines 1047-1052); in both cases the filter inside
on_update_active_stories treats the expired story as inactive. -/
def on_story_expire_timeout (now : Int) (isOwned : Bool) (storyId : Int)
    (story : Option Story) (isServer isActiveOther : Int → Bool)
    (entry : Option (Int × List Int)) : Bool × Option (Int × List Int) :=
  match story with
  | none => (false, entry)
  | some s =>
    if now < s.expireDate then (false, entry)
    else
      let deleteStory := isOwned = false ∧ s.hasContent = true ∧ s.isPinned = false
      let isActive1 : Int → Bool := fun i => if i = storyId then false else isActiveOther i
      match entry with
      | none => (decide deleteStory, none)
      | some (mr, ids) =>
        if storyId ∈ ids then
          let ids0 := if deleteStory then ids.erase storyId else ids
          (decide deleteStory,
           (on_update_active_stories isServer isActive1 (some (mr, ids)) 0 mr ids0 false).1)
        else (decide deleteStory, some (mr, ids))

/-- Embedding of the active-period validation of StoryManager::send_story
(StoryManager.cpp:3367-3373), as the (code, message) error or acceptance
it produces.  A period other than 86400 that is not one of the test-DC
values 60 and 300 must be one of {21600, 43200, 172800, 259200, 604800}
and requires the is_premium option. -/
def send_story_check_active_period (isTestDc isPremium : Bool)
    (activePeriod : Int) : Except (Nat × String) Unit :=
  if activePeriod ≠ 86400 ∧
      ¬(isTestDc = true ∧ (activePeriod = 60 ∨ activePeriod = 300)) then
    if isPremium = false ∨
        activePeriod ∉ ([6 * 3600, 12 * 3600, 2 * 86400, 3 * 86400, 7 * 86400] : List Int) then
      .error (400, "Invalid story active period specified")
    else .ok ()
  else .ok ()

/-- State consulted by do_edit_story and delete_pending_story for an
edited story: whether get_story finds the record, the being-edited entry
(carrying its binlog event identifier and the number of queued promises),
and the story's current edit generation (edit_generations_ value, 0 when
absent). -/
structure BeingEditedStory where
  logEventId : Int
  promises : Nat
deriving DecidableEq

structure EditStoreState where
  storyExists : Bool
  beingEdited : Option BeingEditedStory
  editGeneration : Int
deriving DecidableEq

/-- Embedding of the guard of StoryManager::do_edit_story
(StoryManager.cpp:3668-3684): the EditStoryQuery is sent only when the
story still exists, a being-edited entry is present and the pending
edit's random_id equals the current edit generation; otherwise the edit
is skipped and nothing changes.  The result is whether the query was
issued; the store is never mutated by this function. -/
def do_edit_story (st : EditStoreState) (randomId : Int) : Bool :=
  if st.storyExists = false ∨ st.beingEdited = none ∨ st.editGeneration ≠ randomId
  then false else true

/-- Embedding of the edit branch of StoryManager::delete_pending_story
(StoryManager.cpp:3686-3717).  The second component records the
completion effect: none when the edit was discarded as outdated (nothing
mutated, no promise resolved), some (k, ok) when the entry holding k
promises was cleared and its promises completed with success flag ok. -/
def delete_pending_story (st : EditStoreState) (randomId : Int)
    (success : Bool) : EditStoreState × Option (Nat × Bool) :=
  match st.beingEdited with
  | none => (st, none)
  | some be =>
    if st.storyExists = false ∨ st.editGeneration ≠ randomId then (st, none)
    else ({ st with beingEdited := none }, some (be.promises, success))

/-- State of the new-story send pipeline: the monotone send_story_count_
counter, the ordered set yet_unsent_stories_ (kept as a sorted list), the
key set of ready_to_send_stories_, and the sequence of send_story_num
values for which a SendStoryQuery has been issued, in issue order. -/
structure SendState where
  counter : Nat
  yetUnsent : List Nat
  ready : List Nat
  sentLog : List Nat
deriving DecidableEq

/-- Embedding of StoryManager::try_send_story
(StoryManager.cpp:3523-3540): nothing happens while yet_unsent_stories_
is empty; otherwise the smallest yet-unsent send number is dispatched
exactly when it is ready, removing it from the ready set and issuing its
SendStoryQuery. -/
def try_send_story (s : SendState) : SendState :=
  match s.yetUnsent with
  | [] => s
  | n :: _ =>
    if n ∈ s.ready then
      { s with ready := s.ready.erase n, sentLog := s.sentLog ++ [n] }
    else s

/-- Transitions of the send pipeline, as performed by the source:
send_story and the SendStory binlog replay allocate a fresh number
++send_story_count_ and insert it into yet_unsent_stories_
(StoryManager.cpp:3394-3399 and 3947-3952); edit_story and the EditStory
replay only advance the counter (StoryManager.cpp:3643 and 4004); a
finished upload inserts its pending story into ready_to_send_stories_ and
calls try_send_story (StoryManager.cpp:3494-3499); delete_pending_story
for a new story erases its number from yet_unsent_stories_ and calls
try_send_story (StoryManager.cpp:3718-3726). -/
inductive SendStep : SendState → SendState → Prop
  | send_story (s : SendState) :
      SendStep s { s with counter := s.counter + 1,
                          yetUnsent := s.yetUnsent ++ [s.counter + 1] }
  | edit_story (s : SendState) :
      SendStep s { s with counter := s.counter + 1 }
  | upload_done (s : SendState) (n : Nat) (h1 : n ∈ s.yetUnsent) (h2 : n ∉ s.ready) :
      SendStep s (try_send_story { s with ready := n :: s.ready })
  | finish (s : SendState) (n : Nat) :
      SendStep s (try_send_story { s with yetUnsent := s.yetUnsent.erase n })

def SendState.init : SendState := ⟨0, [], [], []⟩

/-- States of the send pipeline reachable from the empty initial state. -/
def SendReachable (s : SendState) : Prop :=
  Relation.ReflTransGen SendStep SendState.init s

/-- Inductive invariant of the send pipeline: yet_unsent_stories_ is
strictly ascending and bounded by the counter, the dispatch log is
non-decreasing, and every dispatched number is at most every yet-unsent
number and at most the counter. -/
def SendInv (s : SendState) : Prop :=
  s.yetUnsent.Pairwise (· < ·) ∧
  (∀ n ∈ s.yetUnsent, n ≤ s.counter) ∧
  s.sentLog.Pairwise (· ≤ ·) ∧
  (∀ x ∈ s.sentLog, ∀ m ∈ s.yetUnsent, x ≤ m) ∧
  (∀ x ∈ s.sentLog, x ≤ s.counter)

/-- Embedding of the total_count repair of
StoryManager::on_get_story_viewers (StoryManager.cpp:2196-2200): a
negative server count, or one below the size of the returned slice, is
replaced by the slice size. -/
def fix_viewers_total_count (serverCount : Int) (viewsLen : Nat) : Int :=
  if serverCount < 0 ∨ serverCount < (viewsLen : Int) then (viewsLen : Int)
  else serverCount

/-- Embedding of the cached total_count merge of
StoryManager::on_get_story_viewers (StoryManager.cpp:2210-2218): the
repaired server count replaces the cached total only when it is not
smaller, otherwise the old value is kept (and the discrepancy logged). -/
def merge_viewers_total_count (cachedTotal serverCount : Int)
    (viewsLen : Nat) : Int :=
  let t := fix_viewers_total_count serverCount viewsLen
  if t < cachedTotal then cachedTotal else t

/-- Result of the close_story entry point. -/
inductive CloseStoryResult where
  | failure (code : Nat) (msg : String)
  | success
deriving DecidableEq

/-- Embedding of StoryManager::close_story (StoryManager.cpp:1949-1988)
at one story: the dialog existence and access gates, the identifier
validity gate, then for an owned server story with a zero
opened_owned_stories_ count the error 400 "The story wasn\x27t opened"; every
other path reaches promise.set_value, including a missing story. -/
def close_story (haveDialog canAccess isOwned isValidId isServerId : Bool)
    (ownedOpenCount : Nat) : CloseStoryResult :=
  if haveDialog = false then .failure 400 "Story sender not found"
  else if canAccess = false then .failure 400 "Can\x27t access the story sender"
  else if isValidId = false then .failure 400 "Invalid story identifier specified"
  else if isOwned = true ∧ isServerId = true ∧ ownedOpenCount = 0 then
    .failure 400 "The story wasn\x27t opened"
  else .success

/-- Embedding of StoryManager::can_get_story_viewers
(StoryManager.cpp:2116-2128), returning the (code, message) error or none
for OK; get_story_viewers_expire_date is expire_date_ plus the
story_viewers_expiration_delay option (StoryManager.cpp:1142-1145). -/
def can_get_story_viewers (isOwned isServerId : Bool)
    (now expireDate viewersDelay : Int) : Option (Nat × String) :=
  if isOwned = false then some (400, "Story is not outgoing")
  else if isServerId = false then some (400, "Story is not sent yet")
  else if expireDate + viewersDelay ≤ now then some (400, "Story is too old")
  else none

/-- Result of the front part of the get_story_viewers entry point:
either a synchronous error, the immediate empty messageViewers answer, or
continuation to the cache / server fetch path. -/
inductive GetViewersOutcome where
  | failure (code : Nat) (msg : String)
  | emptyViewers
  | fetch
deriving DecidableEq

/-- Embedding of the front of StoryManager::get_story_viewers
(StoryManager.cpp:2130-2143).  The story is looked up under the user's
own dialog, so the ownership test inside can_get_story_viewers always
passes; when viewers can no longer be requested or the view counter is
zero the call succeeds with an empty viewer list instead of contacting
the server. -/
def get_story_viewers (storyExists : Bool) (limit : Int)
    (isServerId : Bool) (now expireDate viewersDelay viewCount : Int) :
    GetViewersOutcome :=
  if storyExists = false then .failure 400 "Story not found"
  else if limit ≤ 0 then .failure 400 "Parameter limit must be positive"
  else if (can_get_story_viewers true isServerId now expireDate viewersDelay) ≠ none ∨
      viewCount = 0 then .emptyViewers
  else .fetch

/-- A concrete story list used to refute claim C1 as stated: fully
materialised (list_last_story_date = MAX_DIALOG_DATE), two materialised
owners, but a stale server total count of 5. -/
def c1CexList : StoryList :=
  { serverTotalCount := 5, orderedStories := [⟨1, 1⟩, ⟨2, 2⟩],
    listLastStoryDate := none, sentTotalCount := 0 }

/-- A concrete story list used to witness the amended claim C1: not yet
fully materialised, one materialised owner, server total count 5. -/
def c1WitnessList : StoryList :=
  { serverTotalCount := 5, orderedStories := [⟨1, 1⟩],
    listLastStoryDate := some ⟨9, 9⟩, sentTotalCount := 0 }

/-- A concrete edit-pipeline state used to witness claim C6: a live story
with one being-edited entry holding two promises, at edit generation 5. -/
def c6WitnessState : EditStoreState :=
  { storyExists := true, beingEdited := some ⟨7, 2⟩, editGeneration := 5 }

/-- A concrete ordering environment used to witness claim C2: a premium
user owner in the Main list whose materialisation cursor is still at the
bottom, so the recomputed public order is 0. -/
def c2WitnessCtx : OrderCtx :=
  { isBot := false, myDialogId := 1, changelogDialogId := 2,
    ownerIsUser := true, ownerIsPremium := true, lastStoryDate := 100,
    storyListId := some false, listLastStoryDate := some ⟨0, 0⟩ }

/-- A concrete ActiveStories entry used to witness claim C2. -/
def c2WitnessActive : ActiveStories :=
  { maxReadStoryId := 0, storyIds := [4, 5], privateOrder := 0,
    publicOrder := 0, storyListId := none }

/-! ## Theorems -/

theorem le_merge_viewers_total_count (cachedTotal serverCount : Int)
    (viewsLen : Nat) :
    cachedTotal ≤ merge_viewers_total_count cachedTotal serverCount viewsLen := by
  simp only [merge_viewers_total_count, fix_viewers_total_count]
  split_ifs <;> omega

/-- C8: for every owned story's cached viewer entry, the stored
total_count never decreases: a server response reporting a smaller total
keeps the old value, so total_count is monotone non-decreasing across any
sequence of merges into the cache. -/
theorem on_get_story_viewers_total_count_monotone
    (cachedTotal serverCount : Int) (viewsLen : Nat) :
    cachedTotal ≤ merge_viewers_total_count cachedTotal serverCount viewsLen ∧
    (fix_viewers_total_count serverCount viewsLen < cachedTotal →
      merge_viewers_total_count cachedTotal serverCount viewsLen = cachedTotal) ∧
    (∀ responses : List (Int × Nat),
      cachedTotal ≤ responses.foldl
        (fun c p => merge_viewers_total_count c p.1 p.2) cachedTotal) := by
  refine ⟨le_merge_viewers_total_count _ _ _, ?_, ?_⟩
  · intro h
    unfold merge_viewers_total_count
    simp only [if_pos h]
  · intro responses
    suffices h : ∀ c : Int, c ≤ responses.foldl
        (fun c p => merge_viewers_total_count c p.1 p.2) c by
      exact h cachedTotal
    induction responses with
    | nil => intro c; exact le_refl c
    | cons p rest ih =>
      intro c
      calc c ≤ merge_viewers_total_count c p.1 p.2 :=
            le_merge_viewers_total_count c p.1 p.2
        _ ≤ rest.foldl (fun c p => merge_viewers_total_count c p.1 p.2)
              (merge_viewers_total_count c p.1 p.2) := ih _

theorem on_get_story_viewers_total_count_monotone_witness :
    merge_viewers_total_count 10 3 2 = 10 :=
  (on_get_story_viewers_total_count_monotone 10 3 2).2.1 (by decide)

/-- C4: send_story accepts active_period exactly when it lies in
{21600, 43200, 86400, 172800, 259200, 604800} seconds (60 and 300 also
permitted in test mode), where 86400 is allowed for every caller and the
other values require the is_premium option; any other value fails with
error 400 "Invalid story active period specified". -/
theorem send_story_active_period_exact (isTestDc isPremium : Bool) (p : Int) :
    (send_story_check_active_period isTestDc isPremium p = .ok () ↔
      (p = 86400 ∨ (isTestDc = true ∧ (p = 60 ∨ p = 300)) ∨
        (isPremium = true ∧
          p ∈ ([21600, 43200, 172800, 259200, 604800] : List Int)))) ∧
    (send_story_check_active_period isTestDc isPremium p ≠ .ok () →
      send_story_check_active_period isTestDc isPremium p =
        .error (400, "Invalid story active period specified")) := by
  have hmem1 : (p ∈ ([6 * 3600, 12 * 3600, 2 * 86400, 3 * 86400, 7 * 86400] : List Int)) ↔
      (p = 21600 ∨ p = 43200 ∨ p = 172800 ∨ p = 259200 ∨ p = 604800) := by
    simp only [List.mem_cons, List.not_mem_nil, or_false]
    norm_num
  have hmem2 : (p ∈ ([21600, 43200, 172800, 259200, 604800] : List Int)) ↔
      (p = 21600 ∨ p = 43200 ∨ p = 172800 ∨ p = 259200 ∨ p = 604800) := by
    simp only [List.mem_cons, List.not_mem_nil, or_false]
  by_cases hA : p = 86400 ∨ (isTestDc = true ∧ (p = 60 ∨ p = 300))
  · have hres : send_story_check_active_period isTestDc isPremium p = .ok () := by
      unfold send_story_check_active_period
      rw [if_neg]
      intro hcon
      rcases hA with hA | hA
      · exact hcon.1 hA
      · exact hcon.2 hA
    rw [hres]
    refine ⟨⟨fun _ => ?_, fun _ => rfl⟩, fun h => absurd rfl h⟩
    rcases hA with hA | hA
    · exact Or.inl hA
    · exact Or.inr (Or.inl hA)
  · push_neg at hA
    have hcond : p ≠ 86400 ∧ ¬(isTestDc = true ∧ (p = 60 ∨ p = 300)) := by
      refine ⟨hA.1, fun hbc => ?_⟩
      rcases hbc.2 with h | h
      · exact (hA.2 hbc.1).1 h
      · exact (hA.2 hbc.1).2 h
    by_cases hB : isPremium = false ∨
        p ∉ ([6 * 3600, 12 * 3600, 2 * 86400, 3 * 86400, 7 * 86400] : List Int)
    · have hres : send_story_check_active_period isTestDc isPremium p =
          .error (400, "Invalid story active period specified") := by
        unfold send_story_check_active_period
        rw [if_pos hcond, if_pos hB]
      rw [hres]
      refine ⟨⟨fun h => absurd h (by simp), fun h => ?_⟩, fun _ => rfl⟩
      exfalso
      rcases h with h | h | ⟨hp, hmemp⟩
      · exact hcond.1 h
      · exact hcond.2 h
      · rcases hB with hB | hB
        · rw [hp] at hB; simp at hB
        · exact hB (hmem1.mpr (hmem2.mp hmemp))
    · have hres : send_story_check_active_period isTestDc isPremium p = .ok () := by
        unfold send_story_check_active_period
        rw [if_pos hcond, if_neg hB]
      rw [hres]
      push_neg at hB
      refine ⟨⟨fun _ => ?_, fun _ => rfl⟩, fun h => absurd rfl h⟩
      right; right
      refine ⟨by simpa using hB.1, hmem2.mpr (hmem1.mp hB.2)⟩

theorem send_story_active_period_exact_witness :
    send_story_check_active_period true false 60 = .ok () :=
  (send_story_active_period_exact true false 60).1.mpr
    (Or.inr (Or.inl ⟨rfl, Or.inl rfl⟩))

/-- C6: a completed or failed edit operation whose random_id differs from
the story's current edit generation is discarded without mutating the
store: do_edit_story sends no EditStoryQuery, and delete_pending_story
neither clears the being-edited entry nor resolves the queued promises. -/
theorem edit_generation_mismatch_discarded (st : EditStoreState)
    (randomId : Int) (success : Bool) (h : randomId ≠ st.editGeneration) :
    do_edit_story st randomId = false ∧
    delete_pending_story st randomId success = (st, none) := by
  have h' : st.editGeneration ≠ randomId := Ne.symm h
  constructor
  · unfold do_edit_story
    rw [if_pos]
    right; right; exact h'
  · unfold delete_pending_story
    cases st.beingEdited with
    | none => rfl
    | some be =>
      simp only []
      rw [if_pos]
      right; exact h'

theorem edit_generation_mismatch_discarded_witness :
    do_edit_story c6WitnessState 4 = false ∧
    delete_pending_story c6WitnessState 4 true = (c6WitnessState, none) :=
  edit_generation_mismatch_discarded c6WitnessState 4 true (by decide)

/-- C9: close_story returns error 400 "The story wasn\x27t opened" only when
the story is owned, has a server-assigned identifier, and its owned-open
count is zero; for every non-owned story or non-server identifier that
passes the dialog and identifier gates, close_story succeeds even if the
story was never opened or is absent from the store. -/
theorem close_story_not_opened_error
    (haveDialog canAccess isOwned isValidId isServerId : Bool)
    (ownedOpenCount : Nat) :
    (close_story haveDialog canAccess isOwned isValidId isServerId ownedOpenCount =
        .failure 400 "The story wasn\x27t opened" →
      isOwned = true ∧ isServerId = true ∧ ownedOpenCount = 0) ∧
    (haveDialog = true → canAccess = true → isValidId = true →
      isOwned = false ∨ isServerId = false →
      close_story haveDialog canAccess isOwned isValidId isServerId ownedOpenCount =
        .success) := by
  constructor
  · intro h
    unfold close_story at h
    split at h
    · simp at h
    · split at h
      · simp at h
      · split at h
        · simp at h
        · split at h
          · assumption
          · simp at h
  · intro h1 h2 h3 h4
    unfold close_story
    rw [if_neg (by simp [h1]), if_neg (by simp [h2]), if_neg (by simp [h3]),
      if_neg]
    intro hcon
    rcases h4 with h4 | h4
    · rw [h4] at hcon; exact Bool.false_ne_true hcon.1
    · rw [h4] at hcon; exact Bool.false_ne_true hcon.2.1

theorem close_story_not_opened_error_witness :
    close_story true true false true true 3 = .success :=
  (close_story_not_opened_error true true false true true 3).2 rfl rfl rfl
    (Or.inl rfl)

/-- C10: get_story_viewers with a positive limit on an existing owned
story never reports a "too old" or "not sent" error: whenever viewers can
no longer be fetched, or the view count is zero, it succeeds with an
empty messageViewers list instead of contacting the server. -/
theorem get_story_viewers_no_untimely_error
    (storyExists : Bool) (limit : Int) (isServerId : Bool)
    (now expireDate viewersDelay viewCount : Int)
    (hex : storyExists = true) (hlim : 0 < limit) :
    (∀ c m, get_story_viewers storyExists limit isServerId now expireDate
        viewersDelay viewCount ≠ .failure c m) ∧
    (can_get_story_viewers true isServerId now expireDate viewersDelay ≠ none ∨
        viewCount = 0 →
      get_story_viewers storyExists limit isServerId now expireDate
        viewersDelay viewCount = .emptyViewers) ∧
    (isServerId = false ∨ expireDate + viewersDelay ≤ now ∨ viewCount = 0 →
      get_story_viewers storyExists limit isServerId now expireDate
        viewersDelay viewCount = .emptyViewers) := by
  subst hex
  have hlim' : ¬ limit ≤ 0 := not_le.mpr hlim
  refine ⟨?_, ?_, ?_⟩
  · intro c m
    unfold get_story_viewers
    rw [if_neg (by simp), if_neg hlim']
    split
    · simp
    · simp
  · intro h
    unfold get_story_viewers
    rw [if_neg (by simp), if_neg hlim', if_pos h]
  · intro h
    have hcg : can_get_story_viewers true isServerId now expireDate
        viewersDelay ≠ none ∨ viewCount = 0 := by
      rcases h with h | h | h
      · left
        unfold can_get_story_viewers
        rw [if_neg (by simp), if_pos h]
        simp
      · left
        unfold can_get_story_viewers
        by_cases hs : isServerId = false
        · rw [if_neg (by simp), if_pos hs]; simp
        · rw [if_neg (by simp), if_neg hs, if_pos h]; simp
      · right; exact h
    unfold get_story_viewers
    rw [if_neg (by simp), if_neg hlim', if_pos hcg]

theorem get_story_viewers_no_untimely_error_witness :
    get_story_viewers true 5 false 0 10 86400 7 = .emptyViewers :=
  (get_story_viewers_no_untimely_error true 5 false 0 10 86400 7 rfl
    (by decide)).2.2 (Or.inl rfl)

/-- C1 (counterexample): on a fully materialised list
(list_last_story_date equal to MAX_DIALOG_DATE) with two materialised
owners and server_total_count 5, update_story_list_sent_total_count sets
sent_total_count to 2, not to max(2, 5) = 5 as the claim states; the code
takes the maximum with server_total_count only while the list is NOT
fully materialised. -/
theorem update_story_list_sent_total_count_claim_cex :
    c1CexList.listLastStoryDate = none ∧
    c1CexList.serverTotalCount ≠ -1 ∧
    ¬ ((update_story_list_sent_total_count false c1CexList).1.sentTotalCount =
        max ((c1CexList.orderedStories.length : Int)) c1CexList.serverTotalCount) := by
  decide

/-- C1 (amended): when the guard passes (server_total_count known and not
a bot), sent_total_count becomes |ordered_stories| when the list is fully
materialised and max(|ordered_stories|, server_total_count) otherwise;
consequently |ordered_stories| is always a lower bound, server_total_count
is a lower bound while the list is not fully materialised, and the
updateStoryListChatCount update is emitted exactly when sent_total_count
changes. -/
theorem update_story_list_sent_total_count_spec (isBot : Bool) (l : StoryList)
    (hbot : isBot = false) (hsrv : l.serverTotalCount ≠ -1) :
    ((update_story_list_sent_total_count isBot l).1.sentTotalCount =
      if l.listLastStoryDate = none then (l.orderedStories.length : Int)
      else max (l.orderedStories.length : Int) l.serverTotalCount) ∧
    ((l.orderedStories.length : Int) ≤
      (update_story_list_sent_total_count isBot l).1.sentTotalCount) ∧
    (l.listLastStoryDate ≠ none →
      l.serverTotalCount ≤
        (update_story_list_sent_total_count isBot l).1.sentTotalCount) ∧
    ((update_story_list_sent_total_count isBot l).2 = true ↔
      (update_story_list_sent_total_count isBot l).1.sentTotalCount ≠
        l.sentTotalCount) := by
  subst hbot
  have hg : ¬ (l.serverTotalCount = -1 ∨ (false : Bool) = true) := by
    simp [hsrv]
  have key : (update_story_list_sent_total_count false l).1.sentTotalCount =
      (if l.listLastStoryDate = none then (l.orderedStories.length : Int)
       else max (l.orderedStories.length : Int) l.serverTotalCount) ∧
      ((update_story_list_sent_total_count false l).2 = true ↔
        (if l.listLastStoryDate = none then (l.orderedStories.length : Int)
         else max (l.orderedStories.length : Int) l.serverTotalCount) ≠
          l.sentTotalCount) := by
    unfold update_story_list_sent_total_count
    rw [if_neg hg]
    simp only []
    by_cases hl : l.listLastStoryDate = none
    · have hn : (if l.listLastStoryDate ≠ none
          then max (l.orderedStories.length : Int) l.serverTotalCount
          else (l.orderedStories.length : Int)) = (l.orderedStories.length : Int) := by
        rw [if_neg]
        intro h
        exact h hl
      rw [hn, if_pos hl]
      by_cases hc : l.sentTotalCount ≠ (l.orderedStories.length : Int)
      · rw [if_pos hc]
        exact ⟨rfl, ⟨fun _ => Ne.symm hc, fun _ => rfl⟩⟩
      · rw [if_neg hc]
        push_neg at hc
        exact ⟨hc, by simp [hc]⟩
    · have hn : (if l.listLastStoryDate ≠ none
          then max (l.orderedStories.length : Int) l.serverTotalCount
          else (l.orderedStories.length : Int)) =
          max (l.orderedStories.length : Int) l.serverTotalCount := by
        rw [if_pos hl]
      rw [hn, if_neg hl]
      by_cases hc : l.sentTotalCount ≠
          max (l.orderedStories.length : Int) l.serverTotalCount
      · rw [if_pos hc]
        exact ⟨rfl, ⟨fun _ => Ne.symm hc, fun _ => rfl⟩⟩
      · rw [if_neg hc]
        push_neg at hc
        exact ⟨hc, by simp [hc]⟩
  refine ⟨key.1, ?_, ?_, ?_⟩
  · rw [key.1]
    by_cases hl : l.listLastStoryDate = none
    · rw [if_pos hl]
    · rw [if_neg hl]
      exact le_max_left _ _
  · intro hl
    rw [key.1, if_neg hl]
    exact le_max_right _ _
  · rw [key.1]
    exact key.2

theorem update_story_list_sent_total_count_spec_witness :
    (c1WitnessList.orderedStories.length : Int) ≤
      (update_story_list_sent_total_count false c1WitnessList).1.sentTotalCount :=
  (update_story_list_sent_total_count_spec false c1WitnessList rfl
    (by decide)).2.1

theorem update_active_stories_order_fields (ctx : OrderCtx) (owner : Int)
    (a : ActiveStories) (hbot : ctx.isBot = false) (lid : Bool)
    (hlist : ctx.storyListId = some lid) :
    (update_active_stories_order ctx owner a).1.privateOrder =
      compute_private_order ctx owner a.maxReadStoryId (a.storyIds.getLastD 0) ∧
    (update_active_stories_order ctx owner a).1.publicOrder =
      (if dialogDateLE
          ⟨compute_private_order ctx owner a.maxReadStoryId (a.storyIds.getLastD 0),
            owner⟩ ctx.listLastStoryDate = true
       then compute_private_order ctx owner a.maxReadStoryId (a.storyIds.getLastD 0)
       else 0) := by
  obtain ⟨amr, aids, apriv, apub, alist⟩ := a
  unfold update_active_stories_order
  rw [if_neg (by simp [hbot])]
  simp only [hlist]
  split_ifs <;> simp_all

/-- C2: for an owner with a non-empty ActiveStories entry and a valid
story list, the recomputed private order is the date of the last story in
story_ids plus bit 33 for a premium user owner, bit 34 for the changelog
sender, bit 35 when max_read_story_id is below the last story identifier,
and bit 36 for self; the public order equals the private order exactly
when (private_order, owner) is at most the list's list_last_story_date,
and is 0 otherwise. -/
theorem update_active_stories_order_spec (ctx : OrderCtx) (owner : Int)
    (a : ActiveStories) (hbot : ctx.isBot = false) (hne : a.storyIds ≠ [])
    (hdate : 0 < ctx.lastStoryDate) (lid : Bool)
    (hlist : ctx.storyListId = some lid) :
    (update_active_stories_order ctx owner a).1.privateOrder =
      ctx.lastStoryDate
      + (if ctx.ownerIsUser = true ∧ ctx.ownerIsPremium = true then (2 : Int) ^ 33 else 0)
      + (if owner = ctx.changelogDialogId then (2 : Int) ^ 34 else 0)
      + (if a.maxReadStoryId < a.storyIds.getLastD 0 then (2 : Int) ^ 35 else 0)
      + (if owner = ctx.myDialogId then (2 : Int) ^ 36 else 0) ∧
    ((update_active_stories_order ctx owner a).1.publicOrder =
        (update_active_stories_order ctx owner a).1.privateOrder ↔
      dialogDateLE ⟨(update_active_stories_order ctx owner a).1.privateOrder, owner⟩
        ctx.listLastStoryDate = true) ∧
    (dialogDateLE ⟨(update_active_stories_order ctx owner a).1.privateOrder, owner⟩
        ctx.listLastStoryDate = false →
      (update_active_stories_order ctx owner a).1.publicOrder = 0) := by
  obtain ⟨hpriv, hpub⟩ := update_active_stories_order_fields ctx owner a hbot lid hlist
  have hpos : 0 < compute_private_order ctx owner a.maxReadStoryId
      (a.storyIds.getLastD 0) := by
    have p33 : (2 : Int) ^ 33 = 8589934592 := by norm_num
    have p34 : (2 : Int) ^ 34 = 17179869184 := by norm_num
    have p35 : (2 : Int) ^ 35 = 34359738368 := by norm_num
    have p36 : (2 : Int) ^ 36 = 68719476736 := by norm_num
    unfold compute_private_order
    split_ifs <;> omega
  refine ⟨?_, ?_, ?_⟩
  · rw [hpriv]
    rfl
  · rw [hpriv, hpub]
    by_cases hle : dialogDateLE
        ⟨compute_private_order ctx owner a.maxReadStoryId (a.storyIds.getLastD 0),
          owner⟩ ctx.listLastStoryDate = true
    · rw [if_pos hle]
      exact ⟨fun _ => hle, fun _ => rfl⟩
    · rw [if_neg hle]
      constructor
      · intro h
        exact absurd h.symm (ne_of_gt hpos)
      · intro h
        exact absurd h hle
  · intro hf
    rw [hpriv] at hf
    rw [hpub, if_neg]
    rw [hf]
    simp

theorem update_active_stories_order_spec_witness :
    (update_active_stories_order c2WitnessCtx 3 c2WitnessActive).1.publicOrder = 0 :=
  (update_active_stories_order_spec c2WitnessCtx 3 c2WitnessActive rfl
    (by decide) (by decide) false rfl).2.2 (by decide)

theorem on_update_active_stories_some (isServer isActive : Int → Bool)
    (existing : Option (Int × List Int)) (stashed maxRead0 : Int)
    (storyIds0 : List Int) (fromDatabase : Bool) (mr : Int) (ids : List Int)
    (h : (on_update_active_stories isServer isActive existing stashed maxRead0
        storyIds0 fromDatabase).1 = some (mr, ids)) :
    ids = storyIds0.filter (fun i => isServer i && isActive i) ∧ ids ≠ [] ∧
    (mr = 0 ∨ ids.headD 0 ≤ mr) := by
  unfold on_update_active_stories at h
  simp only [] at h
  cases hf : storyIds0.filter (fun i => isServer i && isActive i) with
  | nil =>
    rw [hf] at h
    simp at h
  | cons hd tl =>
    rw [hf] at h
    simp only [Option.some.injEq, Prod.mk.injEq] at h
    obtain ⟨hmr, hids⟩ := h
    subst hmr
    refine ⟨hids.symm, by rw [← hids]; simp, ?_⟩
    rw [← hids]
    simp only [List.headD_cons]
    set m1 : Int := if maxRead0 < hd then 0 else maxRead0 with hm1
    by_cases hc : existing = none ∧ stashed ≠ 0 ∧ m1 < stashed ∧ hd ≤ stashed
    · rw [if_pos hc]
      right
      exact hc.2.2.2
    · rw [if_neg hc, hm1]
      split_ifs with hin
      · left
        rfl
      · right
        exact not_lt.mp hin

theorem on_update_active_stories_none_iff (isServer isActive : Int → Bool)
    (existing : Option (Int × List Int)) (stashed maxRead0 : Int)
    (storyIds0 : List Int) (fromDatabase : Bool) :
    (on_update_active_stories isServer isActive existing stashed maxRead0
        storyIds0 fromDatabase).1 = none ↔
      storyIds0.filter (fun i => isServer i && isActive i) = [] := by
  unfold on_update_active_stories
  simp only []
  cases hf : storyIds0.filter (fun i => isServer i && isActive i) with
  | nil => simp
  | cons hd tl => simp

theorem on_update_active_stories_dropped (isServer isActive : Int → Bool)
    (existing : Option (Int × List Int)) (stashed maxRead0 : Int)
    (storyIds0 : List Int) (fromDatabase : Bool)
    (h : storyIds0.filter (fun i => isServer i && isActive i) ≠ storyIds0) :
    (on_update_active_stories isServer isActive existing stashed maxRead0
        storyIds0 fromDatabase).2 = false := by
  have hlen : (storyIds0.filter (fun i => isServer i && isActive i)).length ≠
      storyIds0.length := by
    intro hl
    exact h (List.Sublist.eq_of_length (List.filter_sublist _) hl)
  unfold on_update_active_stories
  simp only []
  rw [if_pos hlen]
  split <;> rfl

/-- C3: the ActiveStories entry produced by on_update_active_stories from
a strictly ascending identifier list holds story_ids that are strictly
ascending, all server-assigned and all currently active, with
max_read_story_id either 0 or at least story_ids[0]; the entry is removed
exactly when the filtered list is empty, and whenever an identifier was
dropped the caller's database snapshot is treated as invalid
(from_database forced to false). -/
theorem on_update_active_stories_invariant (isServer isActive : Int → Bool)
    (existing : Option (Int × List Int)) (stashed maxRead0 : Int)
    (storyIds0 : List Int) (fromDatabase : Bool)
    (hsorted : storyIds0.Sorted (· < ·)) :
    (∀ mr ids, (on_update_active_stories isServer isActive existing stashed
        maxRead0 storyIds0 fromDatabase).1 = some (mr, ids) →
      ids.Sorted (· < ·) ∧ (∀ i ∈ ids, isServer i = true ∧ isActive i = true) ∧
      ids ≠ [] ∧ (mr = 0 ∨ ids.headD 0 ≤ mr)) ∧
    ((on_update_active_stories isServer isActive existing stashed maxRead0
        storyIds0 fromDatabase).1 = none ↔
      storyIds0.filter (fun i => isServer i && isActive i) = []) ∧
    (storyIds0.filter (fun i => isServer i && isActive i) ≠ storyIds0 →
      (on_update_active_stories isServer isActive existing stashed maxRead0
        storyIds0 fromDatabase).2 = false) := by
  refine ⟨?_,
    on_update_active_stories_none_iff isServer isActive existing stashed
      maxRead0 storyIds0 fromDatabase,
    on_update_active_stories_dropped isServer isActive existing stashed
      maxRead0 storyIds0 fromDatabase⟩
  intro mr ids h
  obtain ⟨hids, hne, hmr⟩ := on_update_active_stories_some isServer isActive
    existing stashed maxRead0 storyIds0 fromDatabase mr ids h
  subst hids
  refine ⟨?_, ?_, hne, hmr⟩
  · exact List.Pairwise.sublist (List.filter_sublist _) hsorted
  · intro i hi
    have hmem := List.mem_filter.mp hi
    have hp := hmem.2
    simp only [Bool.and_eq_true] at hp
    exact hp

theorem on_update_active_stories_invariant_witness :
    (((1 : Int) :: [2, 3]).filter
        (fun i => (decide (0 < i)) && (decide (i ≠ 2))) ≠ [1, 2, 3]) ∧
    (on_update_active_stories (fun i => decide (0 < i)) (fun i => decide (i ≠ 2))
        none 0 1 [1, 2, 3] true).2 = false :=
  ⟨by decide,
    (on_update_active_stories_invariant (fun i => decide (0 < i))
      (fun i => decide (i ≠ 2)) none 0 1 [1, 2, 3] true (by decide)).2.2
      (by decide)⟩

/-- C5: when the expire timer fires for a story whose wall-clock deadline
has passed, the story is deleted entirely exactly when it is non-owned,
has content and is not pinned; in every expired case the owner's final
active entry no longer contains the expired identifier; and when the
wall-clock deadline has not actually elapsed the callback is a no-op that
deletes nothing. -/
theorem on_story_expire_timeout_spec (now : Int) (isOwned : Bool)
    (storyId : Int) (story : Option Story) (isServer isActiveOther : Int → Bool)
    (entry : Option (Int × List Int)) :
    ((on_story_expire_timeout now isOwned storyId story isServer isActiveOther
        entry).1 = true ↔
      ∃ s, story = some s ∧ s.expireDate ≤ now ∧ isOwned = false ∧
        s.hasContent = true ∧ s.isPinned = false) ∧
    (∀ s, story = some s → s.expireDate ≤ now →
      ∀ mr ids, (on_story_expire_timeout now isOwned storyId story isServer
          isActiveOther entry).2 = some (mr, ids) → storyId ∉ ids) ∧
    (∀ s, story = some s → now < s.expireDate →
      on_story_expire_timeout now isOwned storyId story isServer isActiveOther
        entry = (false, entry)) ∧
    (story = none →
      on_story_expire_timeout now isOwned storyId story isServer isActiveOther
        entry = (false, entry)) := by
  cases story with
  | none =>
    refine ⟨?_, ?_, ?_, fun _ => rfl⟩
    · simp [on_story_expire_timeout]
    · intro s hs
      exact absurd hs (by simp)
    · intro s hs
      exact absurd hs (by simp)
  | some s =>
    by_cases hlt : now < s.expireDate
    · have hres : on_story_expire_timeout now isOwned storyId (some s) isServer
          isActiveOther entry = (false, entry) := by
        simp only [on_story_expire_timeout]
        rw [if_pos hlt]
      rw [hres]
      refine ⟨?_, ?_, fun _ _ _ => rfl, fun hn => absurd hn (by simp)⟩
      · simp only [Bool.false_eq_true, false_iff]
        rintro ⟨s', hs', hexp, -⟩
        rw [Option.some.injEq] at hs'
        subst hs'
        omega
      · intro s' hs' hexp
        rw [Option.some.injEq] at hs'
        subst hs'
        omega
    · have hge : s.expireDate ≤ now := not_lt.mp hlt
      have hdel : (on_story_expire_timeout now isOwned storyId (some s) isServer
          isActiveOther entry).1 =
          decide (isOwned = false ∧ s.hasContent = true ∧ s.isPinned = false) := by
        simp only [on_story_expire_timeout]
        rw [if_neg hlt]
        cases entry with
        | none => rfl
        | some p =>
          obtain ⟨mr, ids⟩ := p
          simp only []
          split <;> rfl
      refine ⟨?_, ?_, ?_, fun hn => absurd hn (by simp)⟩
      · rw [hdel]
        rw [decide_eq_true_iff]
        constructor
        · intro hc
          exact ⟨s, rfl, hge, hc⟩
        · rintro ⟨s', hs', -, hc⟩
          rw [Option.some.injEq] at hs'
          subst hs'
          exact hc
      · intro s' hs' hexp mr ids hsome
        rw [Option.some.injEq] at hs'
        subst hs'
        simp only [on_story_expire_timeout] at hsome
        rw [if_neg hlt] at hsome
        cases entry with
        | none => simp at hsome
        | some p =>
          obtain ⟨mr0, ids0⟩ := p
          simp only [] at hsome
          by_cases hmem : storyId ∈ ids0
          · rw [if_pos hmem] at hsome
            intro hin
            obtain ⟨hids, -, -⟩ := on_update_active_stories_some _ _ _ _ _ _ _
              _ _ hsome
            rw [hids] at hin
            have hp := (List.mem_filter.mp hin).2
            simp only [Bool.and_eq_true] at hp
            have hp2 := hp.2
            simp at hp2
          · rw [if_neg hmem] at hsome
            rw [Option.some.injEq, Prod.mk.injEq] at hsome
            rw [← hsome.2]
            exact hmem
      · intro s' hs' hexp
        rw [Option.some.injEq] at hs'
        subst hs'
        omega

theorem try_send_story_preserves_inv {s : SendState} (h : SendInv s) :
    SendInv (try_send_story s) := by
  obtain ⟨hyu, hyc, hlog, hly, hlc⟩ := h
  unfold try_send_story
  cases heq : s.yetUnsent with
  | nil => exact ⟨hyu, hyc, hlog, hly, hlc⟩
  | cons n rest =>
    rw [heq] at hyu hyc hly
    show SendInv (if n ∈ s.ready then
      { counter := s.counter, yetUnsent := n :: rest,
        ready := s.ready.erase n, sentLog := s.sentLog ++ [n] } else s)
    split
    · refine ⟨hyu, hyc, ?_, ?_, ?_⟩
      · rw [List.pairwise_append]
        refine ⟨hlog, by simp, ?_⟩
        intro x hx y hy
        rw [List.mem_singleton] at hy
        rw [hy]
        exact hly x hx n (List.mem_cons_self n rest)
      · intro x hx m hm
        rw [List.mem_append, List.mem_singleton] at hx
        rcases hx with hx | hx
        · exact hly x hx m hm
        · subst hx
          rcases List.mem_cons.mp hm with hm | hm
          · exact le_of_eq hm.symm
          · have hpw := List.pairwise_cons.mp hyu
            exact le_of_lt (hpw.1 m hm)
      · intro x hx
        rw [List.mem_append, List.mem_singleton] at hx
        rcases hx with hx | hx
        · exact hlc x hx
        · subst hx
          exact hyc x (List.mem_cons_self x rest)
    · refine ⟨?_, ?_, hlog, ?_, hlc⟩ <;> rw [heq]
      · exact hyu
      · exact hyc
      · exact hly

theorem sendStep_preserves_inv {s t : SendState} (h : SendInv s)
    (hs : SendStep s t) : SendInv t := by
  obtain ⟨hyu, hyc, hlog, hly, hlc⟩ := h
  cases hs with
  | send_story =>
    refine ⟨?_, ?_, hlog, ?_, ?_⟩
    · rw [List.pairwise_append]
      refine ⟨hyu, by simp, ?_⟩
      intro x hx y hy
      rw [List.mem_singleton] at hy
      subst hy
      exact lt_of_le_of_lt (hyc x hx) (Nat.lt_succ_self _)
    · intro n hn
      rw [List.mem_append, List.mem_singleton] at hn
      rcases hn with hn | hn
      · exact le_trans (hyc n hn) (Nat.le_succ _)
      · exact le_of_eq hn
    · intro x hx m hm
      rw [List.mem_append, List.mem_singleton] at hm
      rcases hm with hm | hm
      · exact hly x hx m hm
      · subst hm
        exact le_trans (hlc x hx) (Nat.le_succ _)
    · intro x hx
      exact le_trans (hlc x hx) (Nat.le_succ _)
  | edit_story =>
    exact ⟨hyu, fun n hn => le_trans (hyc n hn) (Nat.le_succ _), hlog, hly,
      fun x hx => le_trans (hlc x hx) (Nat.le_succ _)⟩
  | upload_done n h1 h2 =>
    exact try_send_story_preserves_inv ⟨hyu, hyc, hlog, hly, hlc⟩
  | finish n =>
    apply try_send_story_preserves_inv
    refine ⟨?_, ?_, hlog, ?_, hlc⟩
    · exact List.Pairwise.sublist (List.erase_sublist _ _) hyu
    · intro m hm
      exact hyc m (List.mem_of_mem_erase hm)
    · intro x hx m hm
      exact hly x hx m (List.mem_of_mem_erase hm)

theorem sendReachable_inv {s : SendState} (h : SendReachable s) : SendInv s := by
  unfold SendReachable at h
  induction h with
  | refl =>
    refine ⟨?_, ?_, ?_, ?_, ?_⟩ <;> simp [SendState.init, SendInv]
  | tail hr hstep ih => exact sendStep_preserves_inv ih hstep

/-- C7: new-story sends are dispatched to the server in ascending
send_num order: in every reachable state of the send pipeline the
sequence of issued SendStoryQuery send numbers is sorted, because
try_send_story only ever dispatches the smallest yet-unsent number and a
number leaves yet_unsent_stories_ only when its send completed or
failed. -/
theorem try_send_story_dispatch_fifo (s : SendState) (h : SendReachable s) :
    s.sentLog.Sorted (· ≤ ·) :=
  (sendReachable_inv h).2.2.1

theorem try_send_story_dispatch_fifo_witness :
    (⟨1, [1], [], [1]⟩ : SendState).sentLog.Sorted (· ≤ ·) := by
  apply try_send_story_dispatch_fifo
  have h1 : SendStep SendState.init ⟨1, [1], [], []⟩ :=
    SendStep.send_story SendState.init
  have h2 : SendStep ⟨1, [1], [], []⟩ ⟨1, [1], [], [1]⟩ := by
    have hstep := SendStep.upload_done ⟨1, [1], [], []⟩ 1 (by simp) (by simp)
    have heq : try_send_story ⟨1, [1], [1], []⟩ = ⟨1, [1], [], [1]⟩ := by decide
    rw [heq] at hstep
    exact hstep
  exact Relation.ReflTransGen.tail (Relation.ReflTransGen.single h1) h2

theorem on_story_expire_timeout_spec_witness :
    on_story_expire_timeout 0 false 4
      (some { date := 1, expireDate := 10, isPinned := false,
              hasContent := true, isUpdateSent := true })
      (fun _ => true) (fun _ => true) (some (0, [4, 5])) =
      (false, some (0, [4, 5])) :=
  (on_story_expire_timeout_spec 0 false 4
      (some { date := 1, expireDate := 10, isPinned := false,
              hasContent := true, isUpdateSent := true })
      (fun _ => true) (fun _ => true) (some (0, [4, 5]))).2.2.1
    { date := 1, expireDate := 10, isPinned := false,
      hasContent := true, isUpdateSent := true } rfl (by decide)

end StoryManager
